import Mathlib

/-!
Verification of the `once_self_cell` core primitive (`src/unsafe_self_cell.rs`).

The core manages a single heap allocation (`JoinedCell<Owner, Dependent>`)
holding an owner value and a dependent value that may reference it.  We embed
the code as a state machine over that one allocation:

* `SlotState` is the initialization state of the allocation's memory.
* `Mem` is the allocation's state together with a trace of resource events
  (destructor runs and allocator calls).  Destructor runs and deallocations
  are recorded as symbolic events so that "exactly once", ordering and
  layout-matching claims become statements about the trace.
* Every operation of the source is a function from `Mem` to `Option` of a
  result: `none` models undefined behavior (dereferencing or destroying
  memory that is not in the state the operation's contract requires).
* `Layout::new::<JoinedCell<Owner, Dependent>>()` is a pure function of the
  concrete type pair; one instantiation of the generic code computes the same
  layout value at every site.  We model it by a parameter `L : Nat` fixed per
  instantiation and passed to each operation that computes the layout.
-/

universe u v

/-- The joined record `JoinedCell<Owner, Dependent>` (source lines 22-25):
`owner` is declared first, `dependent` second.  The field declaration order
matters: Rust drop glue for a struct without its own `Drop` impl destroys the
fields in declaration order. -/
structure JoinedCell (Owner : Type u) (Dependent : Type v) where
  owner : Owner
  dependent : Dependent

/-- Initialization state of the single joined allocation. -/
inductive SlotState (Owner : Type u) (Dependent : Type v) where
  /-- storage allocated, neither field written yet -/
  | uninit
  /-- owner written, dependent not yet written (the guard window) -/
  | ownerOnly (o : Owner)
  /-- both fields written: the cell is fully initialized -/
  | full (jc : JoinedCell Owner Dependent)
  /-- the allocation has been returned to the allocator -/
  | freed

/-- Resource events recorded by the embedded operations.  A `deallocEvt` and
an `allocEvt` carry the layout value used at that allocator call. -/
inductive Event where
  | allocEvt (layout : Nat)
  | dropOwnerEvt
  | dropDependentEvt
  | deallocEvt (layout : Nat)
deriving DecidableEq, Repr

/-- The allocation's memory state plus the trace of events so far. -/
structure Mem (Owner : Type u) (Dependent : Type v) where
  slot : SlotState Owner Dependent
  events : List Event

/-- The handle `UnsafeSelfCell<Owner, DependentStatic>` (source lines 30-36):
a single type-erased pointer; the two `PhantomData` markers carry no data.
We model the pointer as a numeric address. -/
structure UnsafeSelfCell (Owner : Type u) (DependentStatic : Type v) where
  joined_void_ptr : Nat

namespace UnsafeSelfCell

variable {Owner : Type u} {Dependent : Type v}

/-- Embedding of `UnsafeSelfCell::new` (source lines 39-45): stores the pointer, no other
effect. -/
def new (joined_void_ptr : Nat) : UnsafeSelfCell Owner Dependent :=
  { joined_void_ptr := joined_void_ptr }

/-- Embedding of `borrow_owner` (source lines 47-52): casts the void pointer to the joined
record and returns a reference to the `owner` field.  The function performs no
write; the memory it returns is the input memory unchanged.  Reading through
the pointer is defined behavior only when the record is fully initialized
(`none` models the undefined-behavior case). -/
def borrow_owner (_c : UnsafeSelfCell Owner Dependent) (m : Mem Owner Dependent) :
    Option (Owner × Mem Owner Dependent) :=
  match m.slot with
  | .full jc => some (jc.owner, m)
  | _ => none

/-- Embedding of `borrow_dependent` (source lines 54-59): same as `borrow_owner` for the
`dependent` field. -/
def borrow_dependent (_c : UnsafeSelfCell Owner Dependent) (m : Mem Owner Dependent) :
    Option (Dependent × Mem Owner Dependent) :=
  match m.slot with
  | .full jc => some (jc.dependent, m)
  | _ => none

/-- Embedding of `drop_joined` (source lines 69-78): `drop_in_place` on the WHOLE
`JoinedCell` record, then `dealloc` with `Layout::new::<JoinedCell<Owner,
Dependent>>()`.  Rust drop glue for `JoinedCell` (which has no own `Drop`
impl) destroys the fields in declaration order: `owner` first, then
`dependent`; the trace records that order.  `L` is the layout the call
computes. -/
def drop_joined (L : Nat) (_c : UnsafeSelfCell Owner Dependent)
    (m : Mem Owner Dependent) : Option (Mem Owner Dependent) :=
  match m.slot with
  | .full _ =>
      some { slot := .freed
             events := m.events ++ [.dropOwnerEvt, .dropDependentEvt, .deallocEvt L] }
  | _ => none

/-- Embedding of `into_owner` (source lines 80-96): `read` moves the owner's bytes out
(no destructor run), then `drop_in_place` destroys only the `dependent`
field, then `dealloc` with `Layout::new::<JoinedCell<Owner, Dependent>>()`,
then the moved-out owner is returned. -/
def into_owner (L : Nat) (_c : UnsafeSelfCell Owner Dependent)
    (m : Mem Owner Dependent) : Option (Owner × Mem Owner Dependent) :=
  match m.slot with
  | .full jc =>
      some (jc.owner,
            { slot := .freed
              events := m.events ++ [.dropDependentEvt, .deallocEvt L] })
  | _ => none

end UnsafeSelfCell

/-- Embedding of `OwnerAndCellDropGuard<Owner, Dependent>` (source lines 118-121): the
partial-construction guard, a boolean flag plus the typed pointer to the
joined allocation. -/
structure OwnerAndCellDropGuard (Owner : Type u) (Dependent : Type v) where
  fully_init : Bool
  joined_ptr : Nat

namespace OwnerAndCellDropGuard

variable {Owner : Type u} {Dependent : Type v}

/-- Embedding of `OwnerAndCellDropGuard::new` (source lines 124-129): `fully_init` starts
false, the given pointer is stored. -/
def new (joined_ptr : Nat) : OwnerAndCellDropGuard Owner Dependent :=
  { fully_init := false, joined_ptr := joined_ptr }

/-- Embedding of `mark_fully_init` (source lines 131-133): sets the flag to true. -/
def mark_fully_init (g : OwnerAndCellDropGuard Owner Dependent) :
    OwnerAndCellDropGuard Owner Dependent :=
  { g with fully_init := true }

/-- The guard's `Drop` impl (source lines 136-155), i.e. the scoped release
that runs when the guard goes out of scope.  If `fully_init` is true it
returns immediately with no effect.  Otherwise it destroys only the `owner`
field in place and deallocates the storage with `Layout::new::<JoinedCell<
Owner, Dependent>>()` (modelled by `L`).  Destroying the owner field is
defined behavior only when that field is initialized (`none` models the
undefined-behavior case); if the dependent happens to be initialized too it
is simply never destroyed. -/
def drop (L : Nat) (g : OwnerAndCellDropGuard Owner Dependent)
    (m : Mem Owner Dependent) : Option (Mem Owner Dependent) :=
  if g.fully_init then
    some m
  else
    match m.slot with
    | .ownerOnly _ =>
        some { slot := .freed, events := m.events ++ [.dropOwnerEvt, .deallocEvt L] }
    | .full _ =>
        some { slot := .freed, events := m.events ++ [.dropOwnerEvt, .deallocEvt L] }
    | _ => none

end OwnerAndCellDropGuard

section Construction

variable {Owner : Type u} {Dependent : Type v}

/-- Modelled from the spec: the macro-generated wrapper construction sequence
is not under `src/` (only the core primitive is); spec section 6 describes it.
Following the spec's words: allocate storage sized for the joined pair, write
the owner, acquire the partial-construction guard, invoke the user-supplied
construction function with a reference to the just-written owner to produce
the dependent, write the dependent, mark the guard fully initialized, let the
guard release (a no-op once fully initialized), and wrap the pointer in the
cell.  `L` is the layout of `JoinedCell<Owner, Dependent>` and `addr` the
address returned by the allocator. -/
def construct (L : Nat) (addr : Nat) (o : Owner) (f : Owner → Dependent) :
    Option (UnsafeSelfCell Owner Dependent × Mem Owner Dependent) :=
  let m0 : Mem Owner Dependent := { slot := .uninit, events := [.allocEvt L] }
  let m1 : Mem Owner Dependent := { m0 with slot := .ownerOnly o }
  let g : OwnerAndCellDropGuard Owner Dependent := .new addr
  let d := f o
  let m2 : Mem Owner Dependent := { m1 with slot := .full { owner := o, dependent := d } }
  let g2 := g.mark_fully_init
  (g2.drop L m2).map (fun m3 => (UnsafeSelfCell.new addr, m3))

/-- Modelled from the spec: the construction sequence when the user-supplied
dependent-construction function aborts after the owner has been written (spec
sections 4.3 and 7).  The guard, still with `fully_init = false`, is dropped
by the unwinding; no cell is produced and the resulting memory is whatever
the guard's scoped release leaves behind. -/
def construct_abort (L : Nat) (addr : Nat) (o : Owner) :
    Option (Mem Owner Dependent) :=
  let m0 : Mem Owner Dependent := { slot := .uninit, events := [.allocEvt L] }
  let m1 : Mem Owner Dependent := { m0 with slot := .ownerOnly o }
  let g : OwnerAndCellDropGuard Owner Dependent := .new addr
  g.drop L m1

end Construction

/-- Thread-safety markers of a Rust type: whether it is `Send` (transferable
to another thread) and whether it is `Sync` (shareable across threads). -/
structure Markers where
  send : Bool
  sync : Bool
deriving DecidableEq, Repr

/-- The markers of `UnsafeSelfCell<Owner, DependentStatic>` as established by
the two conditional `unsafe impl` blocks (source lines 99-113): `Send` is
granted exactly when both `Owner: Send` and `DependentStatic: Send` hold, and
`Sync` exactly when both `Owner: Sync` and `DependentStatic: Sync` hold.
These explicit impls are the only source of the markers: the handle contains
a `NonNull<u8>` field, which blocks the automatic derivation of both markers,
so without the bounds being met the handle has neither. -/
def unsafeSelfCellMarkers (owner dependentStatic : Markers) : Markers :=
  { send := owner.send && dependentStatic.send
    sync := owner.sync && dependentStatic.sync }

/-- The mutating operations available on a live guard.  The public API of
`OwnerAndCellDropGuard` (source lines 123-134) exposes exactly one mutator,
`mark_fully_init`. -/
inductive GuardOp where
  | markFullyInit
deriving DecidableEq, Repr

/-- Runs a sequence of guard API calls on a guard. -/
def applyGuardOps {Owner : Type u} {Dependent : Type v}
    (ops : List GuardOp) (g : OwnerAndCellDropGuard Owner Dependent) :
    OwnerAndCellDropGuard Owner Dependent :=
  match ops with
  | [] => g
  | .markFullyInit :: rest => applyGuardOps rest g.mark_fully_init

/-- A read access through the handle: either `borrow_owner` or
`borrow_dependent`. -/
inductive Access where
  | owner
  | dependent
deriving DecidableEq, Repr

/-- Runs one read access, returning the observed value (owner values on the
left, dependent values on the right) and the resulting memory. -/
def runAccess {Owner : Type u} {Dependent : Type v}
    (c : UnsafeSelfCell Owner Dependent) (m : Mem Owner Dependent) :
    Access → Option ((Owner ⊕ Dependent) × Mem Owner Dependent)
  | .owner => (c.borrow_owner m).map (fun r => (Sum.inl r.1, r.2))
  | .dependent => (c.borrow_dependent m).map (fun r => (Sum.inr r.1, r.2))

/-- Runs a sequence of read accesses in order, collecting every observed
value. -/
def runAccesses {Owner : Type u} {Dependent : Type v}
    (c : UnsafeSelfCell Owner Dependent) (m : Mem Owner Dependent) :
    List Access → Option (List (Owner ⊕ Dependent) × Mem Owner Dependent)
  | [] => some ([], m)
  | a :: rest =>
      match runAccess c m a with
      | none => none
      | some (v, m1) =>
          match runAccesses c m1 rest with
          | none => none
          | some (vs, m2) => some (v :: vs, m2)

/-- The layouts passed to `dealloc` calls, in trace order. -/
def deallocLayouts (events : List Event) : List Nat :=
  events.filterMap (fun e =>
    match e with
    | .deallocEvt l => some l
    | _ => none)

/-- The layouts passed to allocation calls, in trace order. -/
def allocLayouts (events : List Event) : List Nat :=
  events.filterMap (fun e =>
    match e with
    | .allocEvt l => some l
    | _ => none)

/-- Read accesses on a fully initialized memory always succeed, always return
the stored field values, and leave the memory unchanged; by induction this
holds for every sequence of accesses. -/
theorem runAccesses_full {Owner : Type u} {Dependent : Type v}
    (c : UnsafeSelfCell Owner Dependent) (jc : JoinedCell Owner Dependent)
    (evs : List Event) (accs : List Access) :
    runAccesses c { slot := .full jc, events := evs } accs =
      some (accs.map (fun a =>
              match a with
              | .owner => Sum.inl jc.owner
              | .dependent => Sum.inr jc.dependent),
            { slot := .full jc, events := evs }) := by
  induction accs with
  | nil => rfl
  | cons a rest ih =>
      cases a <;>
        simp [runAccesses, runAccess, UnsafeSelfCell.borrow_owner,
          UnsafeSelfCell.borrow_dependent, ih]

/-- Applying any sequence of guard API calls to a guard already marked fully
initialized leaves it unchanged: the only available call is
`mark_fully_init`, which is idempotent. -/
theorem applyGuardOps_marked {Owner : Type u} {Dependent : Type v}
    (ops : List GuardOp) (g : OwnerAndCellDropGuard Owner Dependent) :
    applyGuardOps ops g.mark_fully_init = g.mark_fully_init := by
  induction ops generalizing g with
  | nil => rfl
  | cons op rest ih =>
      cases op
      have hmm : g.mark_fully_init.mark_fully_init = g.mark_fully_init := rfl
      calc applyGuardOps (GuardOp.markFullyInit :: rest) g.mark_fully_init
          = applyGuardOps rest g.mark_fully_init.mark_fully_init := rfl
        _ = applyGuardOps rest g.mark_fully_init := by rw [hmm]
        _ = g.mark_fully_init := ih g

/-- C1: `drop_joined` evaluated at a concrete fully initialized cell (owner 0,
dependent 1, layout 7).  The trace shows exactly one destructor run for each
field and exactly one deallocation, but the owner's destructor runs BEFORE
the dependent's: `drop_in_place` on the whole `JoinedCell` record destroys
the fields in declaration order (`owner` is declared first).  This
contradicts the claimed dependent-before-owner order and the source's own
invariant comment ("owner lives longer than dependent", line 19): while the
dependent's destructor runs, the owner is already destroyed. -/
theorem drop_joined_owner_dropped_first :
    UnsafeSelfCell.drop_joined 7 (UnsafeSelfCell.new 1)
        { slot := SlotState.full { owner := (0 : Nat), dependent := (1 : Nat) }
          events := [] } =
      some { slot := SlotState.freed
             events := [Event.dropOwnerEvt, Event.dropDependentEvt, Event.deallocEvt 7] } :=
  rfl

/-- C2: for every owner value `o` and construction function `f`, constructing
a cell and then calling `into_owner` yields the original owner value back;
the cell's whole lifecycle runs the dependent's destructor exactly once,
deallocates the storage exactly once, and runs the owner's destructor zero
times itself — the single owner-destructor run of the lifecycle is the
eventual drop of the returned value by the caller (the bytes were moved out,
so the freeing step cannot run it again). -/
theorem into_owner_lifecycle {Owner : Type u} {Dependent : Type v}
    (L addr : Nat) (o : Owner) (f : Owner → Dependent) :
    (construct L addr o f).bind (fun cm => cm.1.into_owner L cm.2) =
      some (o, { slot := .freed
                 events := [.allocEvt L, .dropDependentEvt, .deallocEvt L] }) ∧
    List.count Event.dropDependentEvt [Event.allocEvt L, .dropDependentEvt, .deallocEvt L] = 1 ∧
    (deallocLayouts [Event.allocEvt L, .dropDependentEvt, .deallocEvt L]).length = 1 ∧
    List.count Event.dropOwnerEvt [Event.allocEvt L, .dropDependentEvt, .deallocEvt L] = 0 ∧
    List.count Event.dropOwnerEvt
        ([Event.allocEvt L, .dropDependentEvt, .deallocEvt L] ++ [Event.dropOwnerEvt]) = 1 := by
  refine ⟨rfl, ?_, rfl, ?_, ?_⟩ <;> simp [List.count_cons, deallocLayouts]

/-- C3: for every owner value `o` and construction function `f`, constructing
a cell from `o` and `f` and then performing any sequence of `borrow_owner`
and `borrow_dependent` calls in any interleaving succeeds, and every owner
read observes `o` while every dependent read observes `f o`, with the memory
left unchanged by the reads. -/
theorem construct_then_borrow_reads {Owner : Type u} {Dependent : Type v}
    (L addr : Nat) (o : Owner) (f : Owner → Dependent) (accs : List Access) :
    ∃ cell m, construct L addr o f = some (cell, m) ∧
      runAccesses cell m accs =
        some (accs.map (fun a =>
                match a with
                | .owner => Sum.inl o
                | .dependent => Sum.inr (f o)),
              m) := by
  refine ⟨UnsafeSelfCell.new addr,
    { slot := .full { owner := o, dependent := f o }, events := [.allocEvt L] },
    rfl, ?_⟩
  exact runAccesses_full (UnsafeSelfCell.new addr) { owner := o, dependent := f o }
    [.allocEvt L] accs

/-- C4: if the dependent-construction function aborts after the owner has
been written, the guard (still not fully initialized) is dropped: its scoped
release runs the owner's destructor exactly once, frees the allocation
exactly once, and never runs the dependent's destructor. -/
theorem construct_abort_cleanup {Owner : Type u} {Dependent : Type v}
    (L addr : Nat) (o : Owner) :
    (construct_abort L addr o : Option (Mem Owner Dependent)) =
      some { slot := .freed
             events := [.allocEvt L, .dropOwnerEvt, .deallocEvt L] } ∧
    List.count Event.dropOwnerEvt [Event.allocEvt L, .dropOwnerEvt, .deallocEvt L] = 1 ∧
    (deallocLayouts [Event.allocEvt L, .dropOwnerEvt, .deallocEvt L]).length = 1 ∧
    List.count Event.dropDependentEvt [Event.allocEvt L, .dropOwnerEvt, .deallocEvt L] = 0 := by
  refine ⟨rfl, ?_, rfl, ?_⟩ <;> simp [List.count_cons, deallocLayouts]

/-- C5: dropping the guard after `mark_fully_init` has been called performs
no action at all: no destructor of either field runs, no deallocation
happens, and the memory (storage and both fields) is returned unchanged. -/
theorem guard_drop_after_mark_is_noop {Owner : Type u} {Dependent : Type v}
    (L : Nat) (g : OwnerAndCellDropGuard Owner Dependent) (m : Mem Owner Dependent) :
    g.mark_fully_init.drop L m = some m :=
  rfl

/-- C6: a guard acquired from pointer `p` starts with `fully_init = false`
and stores exactly `p`; `mark_fully_init` sets the flag to true. -/
theorem guard_new_and_mark {Owner : Type u} {Dependent : Type v}
    (p : Nat) (g : OwnerAndCellDropGuard Owner Dependent) :
    (OwnerAndCellDropGuard.new p : OwnerAndCellDropGuard Owner Dependent).fully_init
        = false ∧
    (OwnerAndCellDropGuard.new p : OwnerAndCellDropGuard Owner Dependent).joined_ptr
        = p ∧
    g.mark_fully_init.fully_init = true :=
  ⟨rfl, rfl, rfl⟩

/-- C7: on a fully initialized memory, `borrow_owner` and `borrow_dependent`
always succeed (the only `none` branches model dereferencing storage that is
not fully initialized, which the hypothesis excludes) and perform no write:
each returns the input memory itself, so the owner field, the dependent field
and the trace are unchanged, and the handle — taken by shared reference — is
not modified either. -/
theorem borrow_accessors_succeed_and_preserve {Owner : Type u} {Dependent : Type v}
    (c : UnsafeSelfCell Owner Dependent) (m : Mem Owner Dependent)
    (jc : JoinedCell Owner Dependent) (h : m.slot = .full jc) :
    c.borrow_owner m = some (jc.owner, m) ∧
    c.borrow_dependent m = some (jc.dependent, m) := by
  unfold UnsafeSelfCell.borrow_owner UnsafeSelfCell.borrow_dependent
  rw [h]
  exact ⟨rfl, rfl⟩

/-- Witness for C7 at a concrete input: owner 2, dependent 3, pointer 5. -/
theorem borrow_accessors_succeed_and_preserve_witness :
    (UnsafeSelfCell.new 5 : UnsafeSelfCell Nat Nat).borrow_owner
        { slot := .full { owner := 2, dependent := 3 }, events := [] } =
      some (2, { slot := .full { owner := 2, dependent := 3 }, events := [] }) ∧
    (UnsafeSelfCell.new 5 : UnsafeSelfCell Nat Nat).borrow_dependent
        { slot := .full { owner := 2, dependent := 3 }, events := [] } =
      some (3, { slot := .full { owner := 2, dependent := 3 }, events := [] }) :=
  borrow_accessors_succeed_and_preserve (UnsafeSelfCell.new 5)
    { slot := .full { owner := 2, dependent := 3 }, events := [] }
    { owner := 2, dependent := 3 } rfl

/-- C8: in each of the three teardown paths (construct then `drop_joined`,
construct then `into_owner`, and the guard's scoped release on an aborted
construction), the layout passed to the single `dealloc` call equals the
layout used at the single allocation: every site computes
`Layout::new::<JoinedCell<Owner, Dependent>>()` from the same concrete type
pair, modelled by the one layout value `L` of the instantiation, so the
layout-mismatch undefined-behavior branch is unreachable. -/
theorem dealloc_layout_matches_alloc {Owner : Type u} {Dependent : Type v}
    (L addr : Nat) (o : Owner) (f : Owner → Dependent) :
    ((construct L addr o f).bind (fun cm => cm.1.drop_joined L cm.2)).map
        (fun m => (allocLayouts m.events, deallocLayouts m.events)) = some ([L], [L]) ∧
    ((construct L addr o f).bind (fun cm => cm.1.into_owner L cm.2)).map
        (fun r => (allocLayouts r.2.events, deallocLayouts r.2.events)) = some ([L], [L]) ∧
    (construct_abort L addr o : Option (Mem Owner Dependent)).map
        (fun m => (allocLayouts m.events, deallocLayouts m.events)) = some ([L], [L]) :=
  ⟨rfl, rfl, rfl⟩

/-- C9: the handle's thread-safety markers, as granted by the two conditional
`unsafe impl` blocks, hold if and only if both the owner type and the
lifetime-erased dependent type independently have the same marker: the handle
forwards `Send` and `Sync` and neither adds to nor weakens them. -/
theorem markers_forwarded_iff (o d : Markers) :
    ((unsafeSelfCellMarkers o d).send = true ↔ o.send = true ∧ d.send = true) ∧
    ((unsafeSelfCellMarkers o d).sync = true ↔ o.sync = true ∧ d.sync = true) := by
  constructor <;> simp [unsafeSelfCellMarkers]

/-- C10: the guard's `fully_init` flag is monotone under the guard API: it is
false at acquisition, `mark_fully_init` — the sole mutating operation — sets
it true, marking is idempotent, and any sequence of further API calls after
the first mark leaves the guard in exactly the same state (so in particular
nothing ever resets the flag to false). -/
theorem guard_flag_monotone {Owner : Type u} {Dependent : Type v}
    (p : Nat) (g : OwnerAndCellDropGuard Owner Dependent) (ops : List GuardOp) :
    (OwnerAndCellDropGuard.new p : OwnerAndCellDropGuard Owner Dependent).fully_init
        = false ∧
    g.mark_fully_init.fully_init = true ∧
    g.mark_fully_init.mark_fully_init = g.mark_fully_init ∧
    applyGuardOps ops g.mark_fully_init = g.mark_fully_init :=
  ⟨rfl, rfl, rfl, applyGuardOps_marked ops g⟩
